import Mathlib

/-!
Verification of the image plausibility validator of the crop-disease app
(`src/components/AnalysisResults.tsx`): `computeVegetationScore` and
`validateImage`, embedded shallowly.  JavaScript numbers are modelled by `ℚ`
(all arithmetic in the validator is exact on the inputs of interest), byte
buffers (`Uint8ClampedArray`) by a length together with an index function,
and the browser image decoder / canvas resampler by explicit parameters:
`validateImage` receives the decode result as an `Option HTMLImage`, and an
`HTMLImage` carries a `resample` function standing for
`drawImage` + `getImageData` at the requested canvas dimensions.
-/

namespace CropValidator

/-- `Uint8ClampedArray` as returned by `getImageData`: a length and an
index function (`data.length`, `data[i]`). -/
structure PixelData where
  len : ℕ
  get : ℕ → ℕ

/-- A decoded `HTMLImageElement`: natural width and height, plus the
browser's resampler, which for requested canvas dimensions `(cw, ch)`
yields the RGBA byte buffer that `getImageData` would return. -/
structure HTMLImage where
  width : ℕ
  height : ℕ
  resample : ℕ → ℕ → PixelData

/-- The `File` input to `validateImage`: declared media type and size in bytes. -/
structure ImgFile where
  type : String
  size : ℕ

/-- The `details` block of an `ImageValidation`. -/
structure Details where
  width : ℕ
  height : ℕ
  sizeMB : ℚ
  type : String
  vegetationScore : Option ℚ
deriving DecidableEq

/-- The `ImageValidation` verdict returned by `validateImage`. -/
structure ImageValidation where
  ok : Bool
  reason : Option String
  details : Option Details
deriving DecidableEq

/-- `const MAX_IMAGE_MB = 10`. -/
def MAX_IMAGE_MB : ℕ := 10

/-- `const MIN_DIM = 256`. -/
def MIN_DIM : ℕ := 256

/-- `const MIN_VEG_SCORE = 0.08`. -/
def MIN_VEG_SCORE : ℚ := 0.08

/-- `file.type.startsWith(pre)`: prefix test on the character sequences of
the two strings. -/
def strStartsWith (s pre : String) : Bool :=
  pre.data.isPrefixOf s.data

/-- `const scale = Math.min(1, maxSide / Math.max(img.width, img.height))`
with `maxSide = 512`. -/
def canvasScale (img : HTMLImage) : ℚ :=
  min 1 (512 / (max img.width img.height : ℚ))

/-- `canvas.width = Math.max(1, Math.floor(img.width * scale))`. -/
def canvasW (img : HTMLImage) : ℕ :=
  max 1 (⌊(img.width : ℚ) * canvasScale img⌋).toNat

/-- `canvas.height = Math.max(1, Math.floor(img.height * scale))`. -/
def canvasH (img : HTMLImage) : ℕ :=
  max 1 (⌊(img.height : ℚ) * canvasScale img⌋).toNat

/-- `const step = Math.max(1, Math.floor((data.length / 4) / 10000))`. -/
def sampleStep (len : ℕ) : ℕ :=
  max 1 (len / 4 / 10000)

/-- The byte indices visited by `for (let i = 0; i < data.length; i += 4 * step)`:
the multiples of `4 * step` that are `< len`, in order. -/
def sampleIndices (len step : ℕ) : List ℕ :=
  (List.range ((len + (4 * step - 1)) / (4 * step))).map (fun k => k * (4 * step))

/-- One iteration of the sampling loop: `acc` is the pair `(greenish, total)`,
`i` the byte index of the sample.  Transcribes
`const r = data[i], g = data[i+1], b = data[i+2], a = data[i+3];
 if (a < 50) continue; total++;
 const isGreen = g > r * 1.1 && g > b * 1.1 && g > 60; if (isGreen) greenish++`. -/
def scanStep (data : PixelData) (acc : ℕ × ℕ) (i : ℕ) : ℕ × ℕ :=
  let r := data.get i
  let g := data.get (i + 1)
  let b := data.get (i + 2)
  let a := data.get (i + 3)
  if a < 50 then acc
  else if (g : ℚ) > (r : ℚ) * 1.1 ∧ (g : ℚ) > (b : ℚ) * 1.1 ∧ g > 60 then
    (acc.1 + 1, acc.2 + 1)
  else (acc.1, acc.2 + 1)

/-- The whole sampling loop, returning the final `(greenish, total)`. -/
def scanPixels (data : PixelData) (idxs : List ℕ) : ℕ × ℕ :=
  idxs.foldl (scanStep data) (0, 0)

/-- `computeVegetationScore(img)`: downscale to the canvas, sample the RGBA
buffer, and return `total ? greenish / total : 0`. -/
def computeVegetationScore (img : HTMLImage) : ℚ :=
  let data := img.resample (canvasW img) (canvasH img)
  let step := sampleStep data.len
  let res := scanPixels data (sampleIndices data.len step)
  if res.2 = 0 then 0 else (res.1 : ℚ) / (res.2 : ℚ)

/-- `sizeMB = file.size / (1024 * 1024)`. -/
def sizeMB (file : ImgFile) : ℚ :=
  (file.size : ℚ) / (1024 * 1024)

/-- JavaScript's `x.toFixed(1)` for a non-negative number: round
`x * 10` to the nearest integer (ties away from zero) and print with one
digit after the point. -/
def toFixed1 (q : ℚ) : String :=
  let n : ℕ := (⌊q * 10 + 1 / 2⌋).toNat
  toString (n / 10) ++ "." ++ toString (n % 10)

/-- `validateImage(file)`.  The browser decode step
(`loadImageFromBlob`, whose promise rejects on decode failure and whose
rejection the `catch` turns into the decode-failure verdict) is passed in as
`decoded : Option HTMLImage`, `none` meaning the decode failed. -/
def validateImage (file : ImgFile) (decoded : Option HTMLImage) : ImageValidation :=
  if !(strStartsWith file.type "image/") then
    { ok := false, reason := some "File is not an image.", details := none }
  else if sizeMB file > (MAX_IMAGE_MB : ℚ) then
    { ok := false
      reason := some ("Image is too large (" ++ toFixed1 (sizeMB file) ++ " MB). Max "
        ++ toString MAX_IMAGE_MB ++ " MB.")
      details := none }
  else
    match decoded with
    | none =>
      { ok := false, reason := some "Could not read the image. Try another file.", details := none }
    | some img =>
      if img.width < MIN_DIM ∨ img.height < MIN_DIM then
        { ok := false
          reason := some ("Image is too small (" ++ toString img.width ++ "x"
            ++ toString img.height ++ "). Minimum " ++ toString MIN_DIM ++ "x"
            ++ toString MIN_DIM ++ ".")
          details := none }
      else
        let vegetationScore := computeVegetationScore img
        if vegetationScore < MIN_VEG_SCORE then
          { ok := false
            reason := some "Wrong image: looks unlike a crop/leaf. Please upload a clear leaf/plant photo."
            details := some { width := img.width, height := img.height, sizeMB := sizeMB file
                              type := file.type, vegetationScore := some vegetationScore } }
        else
          { ok := true
            reason := none
            details := some { width := img.width, height := img.height, sizeMB := sizeMB file
                              type := file.type, vegetationScore := some vegetationScore } }

/-- Byte pattern of a uniformly green, fully opaque raster:
RGBA `(0, 200, 0, 255)` repeated. -/
def greenPixelByte (i : ℕ) : ℕ :=
  match i % 4 with
  | 0 => 0
  | 1 => 200
  | 2 => 0
  | _ => 255

/-- A decoded image that is uniformly green at every resolution the canvas
may request. -/
def greenImg (w h : ℕ) : HTMLImage :=
  { width := w, height := h, resample := fun cw ch => { len := 4 * cw * ch, get := greenPixelByte } }

/-- A decoded image that is fully transparent (alpha 0 everywhere). -/
def clearImg (w h : ℕ) : HTMLImage :=
  { width := w, height := h, resample := fun cw ch => { len := 4 * cw * ch, get := fun _ => 0 } }

/-- A sampled byte index is kept (not skipped by `continue`) when its alpha
byte is not below 50. -/
def keepSample (data : PixelData) (i : ℕ) : Bool :=
  !(decide (data.get (i + 3) < 50))

/-- The `isGreen` test of the loop at byte index `i`. -/
def greenSample (data : PixelData) (i : ℕ) : Bool :=
  decide ((data.get (i + 1) : ℚ) > (data.get i : ℚ) * 1.1
    ∧ (data.get (i + 1) : ℚ) > (data.get (i + 2) : ℚ) * 1.1 ∧ data.get (i + 1) > 60)

lemma scanStep_skip (data : PixelData) (p : ℕ × ℕ) (i : ℕ)
    (ha : data.get (i + 3) < 50) : scanStep data p i = p := by
  simp [scanStep, ha]

lemma scanStep_green (data : PixelData) (p : ℕ × ℕ) (i : ℕ)
    (ha : ¬ data.get (i + 3) < 50)
    (hg : (data.get (i + 1) : ℚ) > (data.get i : ℚ) * 1.1
      ∧ (data.get (i + 1) : ℚ) > (data.get (i + 2) : ℚ) * 1.1 ∧ data.get (i + 1) > 60) :
    scanStep data p i = (p.1 + 1, p.2 + 1) := by
  simp only [scanStep, if_neg ha, if_pos hg]

lemma scanStep_notGreen (data : PixelData) (p : ℕ × ℕ) (i : ℕ)
    (ha : ¬ data.get (i + 3) < 50)
    (hg : ¬ ((data.get (i + 1) : ℚ) > (data.get i : ℚ) * 1.1
      ∧ (data.get (i + 1) : ℚ) > (data.get (i + 2) : ℚ) * 1.1 ∧ data.get (i + 1) > 60)) :
    scanStep data p i = (p.1, p.2 + 1) := by
  simp only [scanStep, if_neg ha, if_neg hg]

lemma keepSample_iff (data : PixelData) (i : ℕ) :
    keepSample data i = true ↔ ¬ data.get (i + 3) < 50 := by
  simp [keepSample]

lemma greenSample_iff (data : PixelData) (i : ℕ) :
    greenSample data i = true ↔
      ((data.get (i + 1) : ℚ) > (data.get i : ℚ) * 1.1
        ∧ (data.get (i + 1) : ℚ) > (data.get (i + 2) : ℚ) * 1.1 ∧ data.get (i + 1) > 60) := by
  simp only [greenSample, decide_eq_true_eq]

lemma foldl_scanStep (data : PixelData) :
    ∀ (idxs : List ℕ) (p : ℕ × ℕ),
      List.foldl (scanStep data) p idxs =
        (p.1 + (idxs.filter (fun i => keepSample data i && greenSample data i)).length,
         p.2 + (idxs.filter (keepSample data)).length) := by
  intro idxs
  induction idxs with
  | nil => intro p; simp
  | cons i rest ih =>
    intro p
    rw [List.foldl_cons]
    by_cases ha : data.get (i + 3) < 50
    · have hk : keepSample data i = false := by simp [keepSample, ha]
      rw [scanStep_skip data p i ha, ih]
      simp [List.filter_cons, hk]
    · have hk : keepSample data i = true := (keepSample_iff data i).mpr ha
      by_cases hg : (data.get (i + 1) : ℚ) > (data.get i : ℚ) * 1.1
          ∧ (data.get (i + 1) : ℚ) > (data.get (i + 2) : ℚ) * 1.1 ∧ data.get (i + 1) > 60
      · have hgs : greenSample data i = true := (greenSample_iff data i).mpr hg
        rw [scanStep_green data p i ha hg, ih]
        simp only [List.filter_cons, hk, hgs, Bool.and_self, if_true, List.length_cons,
          Prod.mk.injEq]
        omega
      · have hgs : greenSample data i = false := by
          cases hgv : greenSample data i
          · rfl
          · exact absurd ((greenSample_iff data i).mp hgv) hg
        rw [scanStep_notGreen data p i ha hg, ih]
        simp [List.filter_cons, hk, hgs, Prod.mk.injEq]
        omega

lemma scanPixels_eq (data : PixelData) (idxs : List ℕ) :
    scanPixels data idxs =
      ((idxs.filter (fun i => keepSample data i && greenSample data i)).length,
       (idxs.filter (keepSample data)).length) := by
  simpa [scanPixels] using foldl_scanStep data idxs (0, 0)

lemma filter_and_length_le (l : List ℕ) (p q : ℕ → Bool) :
    (l.filter (fun i => p i && q i)).length ≤ (l.filter p).length := by
  induction l with
  | nil => simp
  | cons a t ih =>
    by_cases hp : p a <;> by_cases hq : q a <;>
      simp [List.filter_cons, hp, hq] <;> omega

lemma computeVegetationScore_nonneg (img : HTMLImage) :
    0 ≤ computeVegetationScore img := by
  simp only [computeVegetationScore]
  split
  · exact le_rfl
  · positivity

lemma computeVegetationScore_le_one (img : HTMLImage) :
    computeVegetationScore img ≤ 1 := by
  simp only [computeVegetationScore, scanPixels_eq]
  split
  · exact zero_le_one
  · next hne =>
    rw [div_le_one (by exact_mod_cast Nat.pos_of_ne_zero hne)]
    exact_mod_cast filter_and_length_le _ (keepSample _) (greenSample _)

lemma sampleIndices_mem (len step : ℕ) {i : ℕ} (h : i ∈ sampleIndices len step) :
    ∃ k, i = k * (4 * step) := by
  rcases List.mem_map.mp h with ⟨k, _, rfl⟩
  exact ⟨k, rfl⟩

lemma sampleIndices_mod_four (len step : ℕ) {i : ℕ} (h : i ∈ sampleIndices len step) :
    i % 4 = 0 := by
  rcases sampleIndices_mem len step h with ⟨k, rfl⟩
  have hk : k * (4 * step) = 4 * (k * step) := by ring
  rw [hk, Nat.mul_mod_right]

lemma sampleIndices_length (len step : ℕ) :
    (sampleIndices len step).length = (len + (4 * step - 1)) / (4 * step) := by
  simp [sampleIndices]

lemma sampleIndices_ne_nil (len step : ℕ) (hlen : 0 < len) (hstep : 0 < step) :
    (sampleIndices len step).length ≠ 0 := by
  rw [sampleIndices_length]
  have h4 : 0 < 4 * step := by omega
  have : 4 * step ≤ len + (4 * step - 1) := by omega
  have := (Nat.le_div_iff_mul_le h4).mpr (by omega : 1 * (4 * step) ≤ len + (4 * step - 1))
  omega

lemma greenPixelByte_at (i : ℕ) (h : i % 4 = 0) :
    greenPixelByte i = 0 ∧ greenPixelByte (i + 1) = 200
      ∧ greenPixelByte (i + 2) = 0 ∧ greenPixelByte (i + 3) = 255 := by
  have h1 : (i + 1) % 4 = 1 := by omega
  have h2 : (i + 2) % 4 = 2 := by omega
  have h3 : (i + 3) % 4 = 3 := by omega
  refine ⟨?_, ?_, ?_, ?_⟩ <;> simp [greenPixelByte, h, h1, h2, h3]

lemma scanPixels_all_green (data : PixelData) (idxs : List ℕ)
    (h : ∀ i ∈ idxs, keepSample data i = true ∧ greenSample data i = true) :
    scanPixels data idxs = (idxs.length, idxs.length) := by
  rw [scanPixels_eq]
  have h1 : idxs.filter (fun i => keepSample data i && greenSample data i) = idxs :=
    List.filter_eq_self.mpr fun i hi => by
      rcases h i hi with ⟨hk, hg⟩
      simp [hk, hg]
  have h2 : idxs.filter (keepSample data) = idxs :=
    List.filter_eq_self.mpr fun i hi => (h i hi).1
  rw [h1, h2]

lemma scanPixels_none_kept (data : PixelData) (idxs : List ℕ)
    (h : ∀ i ∈ idxs, keepSample data i = false) :
    scanPixels data idxs = (0, 0) := by
  rw [scanPixels_eq]
  have h1 : idxs.filter (fun i => keepSample data i && greenSample data i) = [] :=
    List.filter_eq_nil_iff.mpr fun i hi => by simp [h i hi]
  have h2 : idxs.filter (keepSample data) = [] :=
    List.filter_eq_nil_iff.mpr fun i hi => by simp [h i hi]
  rw [h1, h2]
  simp

lemma greenImg_resample (w h cw ch : ℕ) :
    (greenImg w h).resample cw ch = { len := 4 * cw * ch, get := greenPixelByte } := rfl

lemma greenImg_score (w h : ℕ) : computeVegetationScore (greenImg w h) = 1 := by
  simp only [computeVegetationScore, greenImg_resample]
  set cw := canvasW (greenImg w h) with hcw
  set ch := canvasH (greenImg w h) with hch
  have hcw1 : 1 ≤ cw := le_max_left 1 _
  have hch1 : 1 ≤ ch := le_max_left 1 _
  set data : PixelData := { len := 4 * cw * ch, get := greenPixelByte } with hdata
  set step := sampleStep data.len with hstep
  have hstep1 : 1 ≤ step := le_max_left 1 _
  have hgreen : ∀ i ∈ sampleIndices data.len step,
      keepSample data i = true ∧ greenSample data i = true := by
    intro i hi
    have hm := sampleIndices_mod_four data.len step hi
    rcases greenPixelByte_at i hm with ⟨hr, hg, hb, ha⟩
    constructor
    · rw [keepSample_iff]
      show ¬ greenPixelByte (i + 3) < 50
      rw [ha]
      omega
    · rw [greenSample_iff]
      show ((greenPixelByte (i + 1) : ℚ) > (greenPixelByte i : ℚ) * 1.1
        ∧ (greenPixelByte (i + 1) : ℚ) > (greenPixelByte (i + 2) : ℚ) * 1.1
        ∧ greenPixelByte (i + 1) > 60)
      rw [hr, hg, hb]
      norm_num
  rw [scanPixels_all_green data _ hgreen]
  have hne : (sampleIndices data.len step).length ≠ 0 := by
    apply sampleIndices_ne_nil
    · show 0 < 4 * cw * ch
      positivity
    · omega
  simp only [if_neg hne]
  rw [div_self]
  exact_mod_cast hne

lemma clearImg_resample (w h cw ch : ℕ) :
    (clearImg w h).resample cw ch = { len := 4 * cw * ch, get := fun _ => 0 } := rfl

lemma clearImg_score (w h : ℕ) : computeVegetationScore (clearImg w h) = 0 := by
  simp only [computeVegetationScore, clearImg_resample]
  rw [scanPixels_none_kept]
  · simp
  · intro i _
    simp [keepSample]

lemma validateImage_no_image (f : ImgFile) (d : Option HTMLImage)
    (h : strStartsWith f.type "image/" = false) :
    validateImage f d
      = { ok := false, reason := some "File is not an image.", details := none } := by
  simp [validateImage, h]

lemma validateImage_too_large (f : ImgFile) (d : Option HTMLImage)
    (h1 : strStartsWith f.type "image/" = true)
    (h2 : sizeMB f > (MAX_IMAGE_MB : ℚ)) :
    validateImage f d
      = { ok := false
          reason := some ("Image is too large (" ++ toFixed1 (sizeMB f) ++ " MB). Max "
            ++ toString MAX_IMAGE_MB ++ " MB.")
          details := none } := by
  simp [validateImage, h1, h2]

lemma validateImage_decode_failed (f : ImgFile)
    (h1 : strStartsWith f.type "image/" = true)
    (h2 : ¬ sizeMB f > (MAX_IMAGE_MB : ℚ)) :
    validateImage f none
      = { ok := false, reason := some "Could not read the image. Try another file.",
          details := none } := by
  simp [validateImage, h1, h2]

lemma validateImage_too_small (f : ImgFile) (img : HTMLImage)
    (h1 : strStartsWith f.type "image/" = true)
    (h2 : ¬ sizeMB f > (MAX_IMAGE_MB : ℚ))
    (h3 : img.width < MIN_DIM ∨ img.height < MIN_DIM) :
    validateImage f (some img)
      = { ok := false
          reason := some ("Image is too small (" ++ toString img.width ++ "x"
            ++ toString img.height ++ "). Minimum " ++ toString MIN_DIM ++ "x"
            ++ toString MIN_DIM ++ ".")
          details := none } := by
  simp [validateImage, h1, h2, h3]

lemma validateImage_low_veg (f : ImgFile) (img : HTMLImage)
    (h1 : strStartsWith f.type "image/" = true)
    (h2 : ¬ sizeMB f > (MAX_IMAGE_MB : ℚ))
    (h3 : ¬ (img.width < MIN_DIM ∨ img.height < MIN_DIM))
    (h4 : computeVegetationScore img < MIN_VEG_SCORE) :
    validateImage f (some img)
      = { ok := false
          reason := some "Wrong image: looks unlike a crop/leaf. Please upload a clear leaf/plant photo."
          details := some { width := img.width, height := img.height, sizeMB := sizeMB f
                            type := f.type, vegetationScore := some (computeVegetationScore img) } } := by
  simp [validateImage, h1, h2, h3, h4]

lemma validateImage_accepted (f : ImgFile) (img : HTMLImage)
    (h1 : strStartsWith f.type "image/" = true)
    (h2 : ¬ sizeMB f > (MAX_IMAGE_MB : ℚ))
    (h3 : ¬ (img.width < MIN_DIM ∨ img.height < MIN_DIM))
    (h4 : ¬ computeVegetationScore img < MIN_VEG_SCORE) :
    validateImage f (some img)
      = { ok := true
          reason := none
          details := some { width := img.width, height := img.height, sizeMB := sizeMB f
                            type := f.type, vegetationScore := some (computeVegetationScore img) } } := by
  simp [validateImage, h1, h2, h3, h4]

/-- Spec wording: scale factor `min(1, 512 / max(width, height))`. -/
def scaleFactorSpec (w h : ℕ) : ℚ :=
  min 1 (512 / (max w h : ℚ))

/-- Spec wording: a side of the downscaled raster (at least one sample). -/
def scaledSideSpec (side w h : ℕ) : ℕ :=
  max 1 (⌊(side : ℚ) * scaleFactorSpec w h⌋).toNat

/-- Spec wording: `stride = max(1, totalPixels / 10000)`. -/
def strideSpec (totalPixels : ℕ) : ℕ :=
  max 1 (totalPixels / 10000)

/-- Spec wording: the byte positions inspected when stepping through the
RGBA buffer of `totalPixels` pixels at the given pixel stride. -/
def inspectedIndicesSpec (totalPixels stride : ℕ) : List ℕ :=
  (List.range ((4 * totalPixels + (4 * stride - 1)) / (4 * stride))).map
    (fun k => k * (4 * stride))

/-- The vegetation-score algorithm as the specification describes it:
downscale by `min(1, 512 / max(width, height))`, step the RGBA buffer at
stride `max(1, totalPixels / 10000)`, skip samples with alpha below 50,
classify a sample green-dominant iff `g > r * 1.1` and `g > b * 1.1` and
`g > 60`, and return green-dominant count over non-transparent count
(0 when no non-transparent sample was found). -/
def computeVegetationScoreSpec (img : HTMLImage) : ℚ :=
  let cw := scaledSideSpec img.width img.width img.height
  let ch := scaledSideSpec img.height img.width img.height
  let data := img.resample cw ch
  let stride := strideSpec (cw * ch)
  let inspected := inspectedIndicesSpec (cw * ch) stride
  let sampled := inspected.filter (fun i => keepSample data i)
  let greens := sampled.filter (fun i => greenSample data i)
  if sampled.length = 0 then 0 else (greens.length : ℚ) / (sampled.length : ℚ)

lemma scaledW_eq (img : HTMLImage) :
    scaledSideSpec img.width img.width img.height = canvasW img := rfl

lemma scaledH_eq (img : HTMLImage) :
    scaledSideSpec img.height img.width img.height = canvasH img := rfl

lemma strideSpec_eq (tp : ℕ) : strideSpec tp = sampleStep (4 * tp) := by
  rw [strideSpec, sampleStep, Nat.mul_div_cancel_left tp (by norm_num : 0 < 4)]

lemma inspectedIndicesSpec_eq (tp s : ℕ) :
    inspectedIndicesSpec tp s = sampleIndices (4 * tp) s := rfl

lemma filter_keep_green (data : PixelData) (l : List ℕ) :
    (l.filter (keepSample data)).filter (greenSample data)
      = l.filter (fun i => keepSample data i && greenSample data i) := by
  rw [List.filter_filter]
  exact List.filter_congr (fun a _ => by rw [Bool.and_comm])

lemma computeVegetationScore_eq_spec (img : HTMLImage)
    (h : (img.resample (canvasW img) (canvasH img)).len
      = 4 * (canvasW img * canvasH img)) :
    computeVegetationScore img = computeVegetationScoreSpec img := by
  simp only [computeVegetationScore, computeVegetationScoreSpec, scaledW_eq, scaledH_eq]
  rw [h, ← strideSpec_eq, ← inspectedIndicesSpec_eq, scanPixels_eq, filter_keep_green]

lemma canvasW_le (img : HTMLImage) : canvasW img ≤ 512 := by
  rw [canvasW]
  have hs : (img.width : ℚ) * canvasScale img ≤ 512 := by
    rcases Nat.eq_zero_or_pos (max img.width img.height) with hm | hm
    · have hw : img.width = 0 := by omega
      rw [hw]
      norm_num
    · have hw : (img.width : ℚ) ≤ (max img.width img.height : ℚ) := by
        exact_mod_cast le_max_left _ _
      have hscale : canvasScale img ≤ 512 / (max img.width img.height : ℚ) :=
        min_le_right _ _
      have hscale0 : 0 ≤ canvasScale img := by
        apply le_min zero_le_one
        positivity
      have hm0 : (0:ℚ) < (max img.width img.height : ℚ) := by exact_mod_cast hm
      calc (img.width : ℚ) * canvasScale img
          ≤ (max img.width img.height : ℚ) * (512 / (max img.width img.height : ℚ)) :=
            mul_le_mul hw hscale hscale0 (le_of_lt hm0)
        _ = 512 := by
            rw [mul_comm, div_mul_cancel₀]
            exact ne_of_gt hm0
  have hfloor : ⌊(img.width : ℚ) * canvasScale img⌋ ≤ 512 := by
    have := Int.floor_mono hs
    simpa using this
  have : (⌊(img.width : ℚ) * canvasScale img⌋).toNat ≤ 512 := by
    omega
  omega

lemma canvasH_le (img : HTMLImage) : canvasH img ≤ 512 := by
  rw [canvasH]
  have hs : (img.height : ℚ) * canvasScale img ≤ 512 := by
    rcases Nat.eq_zero_or_pos (max img.width img.height) with hm | hm
    · have hw : img.height = 0 := by omega
      rw [hw]
      norm_num
    · have hw : (img.height : ℚ) ≤ (max img.width img.height : ℚ) := by
        exact_mod_cast le_max_right _ _
      have hscale : canvasScale img ≤ 512 / (max img.width img.height : ℚ) :=
        min_le_right _ _
      have hscale0 : 0 ≤ canvasScale img := by
        apply le_min zero_le_one
        positivity
      have hm0 : (0:ℚ) < (max img.width img.height : ℚ) := by exact_mod_cast hm
      calc (img.height : ℚ) * canvasScale img
          ≤ (max img.width img.height : ℚ) * (512 / (max img.width img.height : ℚ)) :=
            mul_le_mul hw hscale hscale0 (le_of_lt hm0)
        _ = 512 := by
            rw [mul_comm, div_mul_cancel₀]
            exact ne_of_gt hm0
  have hfloor : ⌊(img.height : ℚ) * canvasScale img⌋ ≤ 512 := by
    have := Int.floor_mono hs
    simpa using this
  have : (⌊(img.height : ℚ) * canvasScale img⌋).toNat ≤ 512 := by
    omega
  omega

/-- C1: for every input, `validateImage` applies exactly five checks in
order — declared media type, size in MB, decode, minimum dimensions,
vegetation score — short-circuiting at the first failing check with that
check's reason (so a later check's reason is never returned when an earlier
check fails), and returns the accepted verdict when all five pass. -/
theorem validateImage_check_order (f : ImgFile) (d : Option HTMLImage) :
    (strStartsWith f.type "image/" = false →
      validateImage f d
        = { ok := false, reason := some "File is not an image.", details := none })
    ∧ (strStartsWith f.type "image/" = true → sizeMB f > (MAX_IMAGE_MB : ℚ) →
      validateImage f d
        = { ok := false
            reason := some ("Image is too large (" ++ toFixed1 (sizeMB f) ++ " MB). Max "
              ++ toString MAX_IMAGE_MB ++ " MB.")
            details := none })
    ∧ (strStartsWith f.type "image/" = true → ¬ sizeMB f > (MAX_IMAGE_MB : ℚ) →
      d = none →
      validateImage f d
        = { ok := false, reason := some "Could not read the image. Try another file.",
            details := none })
    ∧ (∀ img, strStartsWith f.type "image/" = true → ¬ sizeMB f > (MAX_IMAGE_MB : ℚ) →
      d = some img → (img.width < MIN_DIM ∨ img.height < MIN_DIM) →
      validateImage f d
        = { ok := false
            reason := some ("Image is too small (" ++ toString img.width ++ "x"
              ++ toString img.height ++ "). Minimum " ++ toString MIN_DIM ++ "x"
              ++ toString MIN_DIM ++ ".")
            details := none })
    ∧ (∀ img, strStartsWith f.type "image/" = true → ¬ sizeMB f > (MAX_IMAGE_MB : ℚ) →
      d = some img → ¬ (img.width < MIN_DIM ∨ img.height < MIN_DIM) →
      computeVegetationScore img < MIN_VEG_SCORE →
      validateImage f d
        = { ok := false
            reason := some "Wrong image: looks unlike a crop/leaf. Please upload a clear leaf/plant photo."
            details := some { width := img.width, height := img.height, sizeMB := sizeMB f
                              type := f.type, vegetationScore := some (computeVegetationScore img) } })
    ∧ (∀ img, strStartsWith f.type "image/" = true → ¬ sizeMB f > (MAX_IMAGE_MB : ℚ) →
      d = some img → ¬ (img.width < MIN_DIM ∨ img.height < MIN_DIM) →
      ¬ computeVegetationScore img < MIN_VEG_SCORE →
      validateImage f d
        = { ok := true
            reason := none
            details := some { width := img.width, height := img.height, sizeMB := sizeMB f
                              type := f.type, vegetationScore := some (computeVegetationScore img) } }) := by
  refine ⟨fun h => validateImage_no_image f d h,
          fun h1 h2 => validateImage_too_large f d h1 h2,
          fun h1 h2 hd => ?_,
          fun img h1 h2 hd h3 => ?_,
          fun img h1 h2 hd h3 h4 => ?_,
          fun img h1 h2 hd h3 h4 => ?_⟩
  · rw [hd]
    exact validateImage_decode_failed f h1 h2
  · rw [hd]
    exact validateImage_too_small f img h1 h2 h3
  · rw [hd]
    exact validateImage_low_veg f img h1 h2 h3 h4
  · rw [hd]
    exact validateImage_accepted f img h1 h2 h3 h4

theorem validateImage_check_order_witness :
    validateImage { type := "text/plain", size := 5 } none
      = { ok := false, reason := some "File is not an image.", details := none } :=
  (validateImage_check_order { type := "text/plain", size := 5 } none).1 (by decide)

/-- C2: `computeVegetationScore` computes exactly what the specification
describes (given that the resampler returns one RGBA quadruple per canvas
pixel): downscale by `min(1, 512 / max(width, height))` so the longer canvas
side is at most 512, stride `max(1, totalPixels / 10000)` through the RGBA
buffer, skip samples with alpha below 50, count a sample green-dominant iff
`g > r * 1.1` and `g > b * 1.1` and `g > 60`, and divide the green-dominant
count by the non-transparent sample count. -/
theorem computeVegetationScore_matches_spec (img : HTMLImage)
    (h : (img.resample (canvasW img) (canvasH img)).len
      = 4 * (canvasW img * canvasH img)) :
    computeVegetationScore img = computeVegetationScoreSpec img
      ∧ max (canvasW img) (canvasH img) ≤ 512 :=
  ⟨computeVegetationScore_eq_spec img h, max_le (canvasW_le img) (canvasH_le img)⟩

theorem computeVegetationScore_matches_spec_witness :
    computeVegetationScore (greenImg 2 2) = computeVegetationScoreSpec (greenImg 2 2)
      ∧ max (canvasW (greenImg 2 2)) (canvasH (greenImg 2 2)) ≤ 512 :=
  computeVegetationScore_matches_spec (greenImg 2 2) (by simp [greenImg, Nat.mul_assoc])

/-- C3: the 5000×5000 uniformly green 3 MB PNG is accepted with details
`width 5000, height 5000, sizeMB 3, type "image/png", vegetationScore 1`;
and in general every accepted verdict carries a details block with exactly
these five fields, the vegetation score included. -/
theorem validateImage_green_png_example :
    validateImage { type := "image/png", size := 3145728 } (some (greenImg 5000 5000))
      = { ok := true
          reason := none
          details := some { width := 5000, height := 5000, sizeMB := 3
                            type := "image/png", vegetationScore := some 1 } }
    ∧ ∀ (f : ImgFile) (d : Option HTMLImage), (validateImage f d).ok = true →
        ∃ img, d = some img ∧ (validateImage f d).details
          = some { width := img.width, height := img.height, sizeMB := sizeMB f
                   type := f.type, vegetationScore := some (computeVegetationScore img) } := by
  constructor
  · rw [validateImage_accepted _ _ (by decide)
      (by simp only [sizeMB]; norm_num [MAX_IMAGE_MB])
      (by simp [greenImg, MIN_DIM])
      (by rw [greenImg_score, MIN_VEG_SCORE]; norm_num), greenImg_score]
    simp [sizeMB, greenImg]
    norm_num
  · intro f d hok
    cases hb : strStartsWith f.type "image/"
    · rw [validateImage_no_image f d hb] at hok
      exact absurd hok (by simp)
    · by_cases h2 : sizeMB f > (MAX_IMAGE_MB : ℚ)
      · rw [validateImage_too_large f d hb h2] at hok
        exact absurd hok (by simp)
      · cases d with
        | none =>
          rw [validateImage_decode_failed f hb h2] at hok
          exact absurd hok (by simp)
        | some img =>
          by_cases h3 : img.width < MIN_DIM ∨ img.height < MIN_DIM
          · rw [validateImage_too_small f img hb h2 h3] at hok
            exact absurd hok (by simp)
          · by_cases h4 : computeVegetationScore img < MIN_VEG_SCORE
            · rw [validateImage_low_veg f img hb h2 h3 h4] at hok
              exact absurd hok (by simp)
            · exact ⟨img, rfl, by rw [validateImage_accepted f img hb h2 h3 h4]⟩

theorem validateImage_green_png_example_witness :
    ∃ img, (some (greenImg 5000 5000) : Option HTMLImage) = some img
      ∧ (validateImage { type := "image/png", size := 3145728 }
          (some (greenImg 5000 5000))).details
        = some { width := img.width, height := img.height
                 sizeMB := sizeMB { type := "image/png", size := 3145728 }
                 type := "image/png", vegetationScore := some (computeVegetationScore img) } :=
  validateImage_green_png_example.2 _ _ (by rw [validateImage_green_png_example.1])

/-- C4: the vegetation score always lies in `[0, 1]`; when every sample of
the raster is transparent (alpha below 50) the score is `0`, and — the
configured threshold `0.08` being positive — such a raster, once past the
media-type, size and dimension checks, is rejected with the
low-vegetation-score reason. -/
theorem vegetationScore_bounds (img : HTMLImage) :
    (0 ≤ computeVegetationScore img ∧ computeVegetationScore img ≤ 1)
    ∧ ((∀ i, i % 4 = 0 → (img.resample (canvasW img) (canvasH img)).get (i + 3) < 50) →
        computeVegetationScore img = 0
        ∧ ∀ f : ImgFile, strStartsWith f.type "image/" = true →
            ¬ sizeMB f > (MAX_IMAGE_MB : ℚ) →
            ¬ (img.width < MIN_DIM ∨ img.height < MIN_DIM) →
            validateImage f (some img)
              = { ok := false
                  reason := some "Wrong image: looks unlike a crop/leaf. Please upload a clear leaf/plant photo."
                  details := some { width := img.width, height := img.height, sizeMB := sizeMB f
                                    type := f.type, vegetationScore := some 0 } }) := by
  refine ⟨⟨computeVegetationScore_nonneg img, computeVegetationScore_le_one img⟩, ?_⟩
  intro htrans
  have hscore : computeVegetationScore img = 0 := by
    simp only [computeVegetationScore]
    rw [scanPixels_none_kept]
    · simp
    · intro i hi
      have hm := sampleIndices_mod_four _ _ hi
      simp [keepSample, htrans i hm]
  refine ⟨hscore, ?_⟩
  intro f h1 h2 h3
  have h4 : computeVegetationScore img < MIN_VEG_SCORE := by
    rw [hscore, MIN_VEG_SCORE]
    norm_num
  rw [validateImage_low_veg f img h1 h2 h3 h4, hscore]

theorem vegetationScore_bounds_witness :
    validateImage { type := "image/png", size := 1024 } (some (clearImg 300 300))
      = { ok := false
          reason := some "Wrong image: looks unlike a crop/leaf. Please upload a clear leaf/plant photo."
          details := some { width := 300, height := 300
                            sizeMB := sizeMB { type := "image/png", size := 1024 }
                            type := "image/png", vegetationScore := some 0 } } :=
  ((vegetationScore_bounds (clearImg 300 300)).2
    (by intro i _; simp [clearImg])).2
    { type := "image/png", size := 1024 } (by decide)
    (by simp only [sizeMB]; norm_num [MAX_IMAGE_MB])
    (by simp [clearImg, MIN_DIM])

/-- C5: `validateImage` always returns a verdict — every rejection carries a
reason string — and a decode failure on an input that passed the media-type
and size checks is converted into the rejected verdict with reason
"Could not read the image. Try another file." rather than propagated. -/
theorem validateImage_no_escape :
    (∀ (f : ImgFile) (d : Option HTMLImage),
      (validateImage f d).ok = false → (validateImage f d).reason ≠ none)
    ∧ (∀ f : ImgFile, strStartsWith f.type "image/" = true →
        ¬ sizeMB f > (MAX_IMAGE_MB : ℚ) →
        validateImage f none
          = { ok := false, reason := some "Could not read the image. Try another file.",
              details := none }) := by
  constructor
  · intro f d
    cases hb : strStartsWith f.type "image/"
    · rw [validateImage_no_image f d hb]
      simp
    · by_cases h2 : sizeMB f > (MAX_IMAGE_MB : ℚ)
      · rw [validateImage_too_large f d hb h2]
        simp
      · cases d with
        | none =>
          rw [validateImage_decode_failed f hb h2]
          simp
        | some img =>
          by_cases h3 : img.width < MIN_DIM ∨ img.height < MIN_DIM
          · rw [validateImage_too_small f img hb h2 h3]
            simp
          · by_cases h4 : computeVegetationScore img < MIN_VEG_SCORE
            · rw [validateImage_low_veg f img hb h2 h3 h4]
              simp
            · rw [validateImage_accepted f img hb h2 h3 h4]
              simp
  · intro f h1 h2
    exact validateImage_decode_failed f h1 h2

theorem validateImage_no_escape_witness :
    validateImage { type := "image/gif", size := 0 } none
      = { ok := false, reason := some "Could not read the image. Try another file.",
          details := none } :=
  validateImage_no_escape.2 { type := "image/gif", size := 0 } (by decide)
    (by simp only [sizeMB]; norm_num [MAX_IMAGE_MB])

/-- C6: a file with an image media type whose size in MB exceeds the 10 MB
maximum is rejected with the reason that renders the actual size to one
decimal place followed by the configured maximum:
`Image is too large (X.X MB). Max 10 MB.`. -/
theorem validateImage_too_large_reason (f : ImgFile) (d : Option HTMLImage)
    (h1 : strStartsWith f.type "image/" = true)
    (h2 : sizeMB f > (MAX_IMAGE_MB : ℚ)) :
    validateImage f d
      = { ok := false
          reason := some ("Image is too large (" ++ toFixed1 (sizeMB f) ++ " MB). Max "
            ++ toString MAX_IMAGE_MB ++ " MB.")
          details := none } :=
  validateImage_too_large f d h1 h2

theorem validateImage_too_large_reason_witness :
    validateImage { type := "image/jpeg", size := 12897485 } none
      = { ok := false, reason := some "Image is too large (12.3 MB). Max 10 MB.",
          details := none } := by
  rw [validateImage_too_large_reason { type := "image/jpeg", size := 12897485 } none
    (by decide) (by simp only [sizeMB]; norm_num [MAX_IMAGE_MB])]
  have hf : ⌊sizeMB { type := "image/jpeg", size := 12897485 } * 10 + 1 / 2⌋ = (123 : ℤ) := by
    simp only [sizeMB]
    rw [Int.floor_eq_iff]
    constructor <;> norm_num
  simp only [toFixed1, hf]
  rfl

/-- C7: a decodable image of acceptable type and size whose width or height
is below the 256 px minimum is rejected with the reason naming the actual
dimensions and the minimum: `Image is too small (WxH). Minimum 256x256.`. -/
theorem validateImage_too_small_reason (f : ImgFile) (img : HTMLImage)
    (h1 : strStartsWith f.type "image/" = true)
    (h2 : ¬ sizeMB f > (MAX_IMAGE_MB : ℚ))
    (h3 : img.width < MIN_DIM ∨ img.height < MIN_DIM) :
    validateImage f (some img)
      = { ok := false
          reason := some ("Image is too small (" ++ toString img.width ++ "x"
            ++ toString img.height ++ "). Minimum " ++ toString MIN_DIM ++ "x"
            ++ toString MIN_DIM ++ ".")
          details := none } :=
  validateImage_too_small f img h1 h2 h3

theorem validateImage_too_small_reason_witness :
    validateImage { type := "image/png", size := 1000 } (some (clearImg 120 80))
      = { ok := false, reason := some "Image is too small (120x80). Minimum 256x256.",
          details := none } := by
  rw [validateImage_too_small_reason { type := "image/png", size := 1000 } (clearImg 120 80)
    (by decide) (by simp only [sizeMB]; norm_num [MAX_IMAGE_MB])
    (by simp [clearImg, MIN_DIM])]
  rfl

/-- C8: an input whose declared media type does not start with "image/" is
rejected with reason exactly "File is not an image.", regardless of its
content, size or dimensions. -/
theorem validateImage_not_an_image (f : ImgFile) (d : Option HTMLImage)
    (h : strStartsWith f.type "image/" = false) :
    validateImage f d
      = { ok := false, reason := some "File is not an image.", details := none } :=
  validateImage_no_image f d h

theorem validateImage_not_an_image_witness :
    validateImage { type := "application/pdf", size := 3145728 }
      (some (greenImg 5000 5000))
      = { ok := false, reason := some "File is not an image.", details := none } :=
  validateImage_not_an_image { type := "application/pdf", size := 3145728 }
    (some (greenImg 5000 5000)) (by decide)

/-- C9: `validateImage` is deterministic — two runs on the same file and the
same decode result return the identical verdict. -/
theorem validateImage_deterministic (f₁ f₂ : ImgFile) (d₁ d₂ : Option HTMLImage)
    (hf : f₁ = f₂) (hd : d₁ = d₂) :
    validateImage f₁ d₁ = validateImage f₂ d₂ := by
  rw [hf, hd]

theorem validateImage_deterministic_witness :
    validateImage { type := "image/png", size := 1 } none
      = validateImage { type := "image/png", size := 1 } none :=
  validateImage_deterministic { type := "image/png", size := 1 }
    { type := "image/png", size := 1 } none none rfl rfl

/-- C10: both limit checks are strict at the boundary — a file of exactly
10 MB (10485760 bytes) passes the size check and a decoded 256×256 image
passes the dimension check, so a green image with exactly these boundary
values is accepted. -/
theorem validateImage_boundary_strict :
    validateImage { type := "image/png", size := 10485760 } (some (greenImg 256 256))
      = { ok := true
          reason := none
          details := some { width := 256, height := 256, sizeMB := 10
                            type := "image/png", vegetationScore := some 1 } } := by
  rw [validateImage_accepted _ _ (by decide)
    (by simp only [sizeMB]; norm_num [MAX_IMAGE_MB])
    (by simp [greenImg, MIN_DIM])
    (by rw [greenImg_score, MIN_VEG_SCORE]; norm_num), greenImg_score]
  simp [sizeMB, greenImg]
  norm_num

example : sampleStep (4 * 512 * 512) = 26 := by decide
example : sampleIndices 16 1 = [0, 4, 8, 12] := by decide
example : toFixed1 (12897485 / 1048576 : ℚ) = "12.3" := by
  have h : ⌊(12897485 / 1048576 : ℚ) * 10 + 1 / 2⌋ = (123 : ℤ) := by
    rw [Int.floor_eq_iff]
    constructor <;> norm_num
  simp only [toFixed1, h]
  rfl
example :
    validateImage { type := "text/plain", size := 5 } none
      = { ok := false, reason := some "File is not an image.", details := none } := by
  simp [validateImage, strStartsWith]

end CropValidator
